import Mathlib

/-!
Shallow embedding of the long-running-plugin lifecycle subsystem of
`amazon-ssm-agent` (files `agent/longrunning/manager/coreplugin.go`,
`agent/longrunning/manager/utils.go`, `agent/framework/plugin/plugin.go`).

Go maps are modelled as association lists; map indexing without the
`, ok` form yields the zero value, as in Go.  Side effects (log calls,
pool submissions, direct handler invocations, pool shutdowns, channel
sends) are recorded as an explicit event trace.  External collaborators
(the data store, the scheduler, the plugin constructors, the worker
pool's internal behaviour) are inputs to the embedded functions.
-/

namespace SsmAgent

/-- Association-list lookup, mirroring Go's `v, ok := m[k]` two-value map read. -/
def mapGet {α : Type} : List (String × α) → String → Option α
  | [], _ => none
  | (k, v) :: rest, key => if k = key then some v else mapGet rest key

/-- Go's one-value map read `m[k]`: the zero value when the key is absent. -/
def mapGetD {α : Type} (m : List (String × α)) (key : String) (zero : α) : α :=
  (mapGet m key).getD zero

/-- Go map assignment `m[k] = v`: overwrites any existing binding for `k`. -/
def mapSet {α : Type} (m : List (String × α)) (key : String) (v : α) : List (String × α) :=
  (m.filter fun kv => kv.1 ≠ key) ++ [(key, v)]

/-- `Except.toOption` written out, used to state catalog-lookup results. -/
def exceptToOption {ε α : Type} : Except ε α → Option α
  | .ok a => some a
  | .error _ => none

/-! ## Data model (`agent/longrunning/plugin`)

Modelled from the spec: the `plugin.Plugin` / `plugin.PluginInfo` struct
definitions live in `agent/longrunning/plugin`, outside this excerpt; their
shape is fixed by the spec's RegisteredPlugin/PluginInfo descriptions and by
every field access in `coreplugin.go` and `utils.go` (`p.Info.Name`,
`p.Info.Configuration`, `p.Handler.Start`, `p.Handler.IsRunning`). -/

/-- `plugin.PluginState{}` — plugin-defined status snapshot, opaque here. -/
structure PluginState where
deriving DecidableEq

/-- `plugin.PluginInfo`: persisted/desired state of one plugin. -/
structure PluginInfo where
  Name : String
  Configuration : String
  State : PluginState
deriving DecidableEq

/-- The handler behind the capability contract.  Only the answer its
`IsRunning(ctx)` gives at the time of a check is relevant to the lifecycle
code, so the handler is modelled by that answer. -/
structure LrHandler where
  isRunning : Bool
deriving DecidableEq

/-- `plugin.Plugin`: an `Info` template paired with a `Handler`.  The
`Handler` field is a Go interface, so its zero value is the nil interface,
modelled as `none`; invoking a method on it panics. -/
structure Plugin where
  Info : PluginInfo
  Handler : Option LrHandler
deriving DecidableEq

/-- The zero value of `plugin.PluginInfo`. -/
def zeroPluginInfo : PluginInfo := { Name := "", Configuration := "", State := {} }

/-- The zero value of `plugin.Plugin` (nil interface in `Handler`). -/
def zeroPlugin : Plugin := { Info := zeroPluginInfo, Handler := none }

/-! ## Constants (`coreplugin.go` lines 31-49).  Durations in nanoseconds,
as Go's `time.Duration`. -/

def Name : String := "LongRunningPluginsManager"

def NumberOfLongRunningPluginWorkers : Nat := 5

def NumberOfCancelWorkers : Nat := 5

def PollFrequencyMinutes : Nat := 15

/-- One `time.Second` in nanoseconds. -/
def second : Nat := 1000000000

/-- `HardStopTimeout = 4 * time.Second`. -/
def HardStopTimeout : Nat := 4 * second

/-- `SoftStopTimeout = 20 * time.Second`. -/
def SoftStopTimeout : Nat := 20 * second

/-- Modelled from the spec: `contracts.StopType` (package `agent/contracts`,
outside this excerpt) is a string-typed enum whose two values used here are
SoftStop and HardStop. -/
def StopTypeSoftStop : String := "SoftStop"

def StopTypeHardStop : String := "HardStop"

/-! ## Events and manager state -/

/-- The two task pools owned by the manager. -/
inductive PoolId where
  | start
  | stop
deriving DecidableEq

/-- A handle returned by `scheduler.Every(...).Run(...)`. -/
structure Job where
  id : Nat
deriving DecidableEq

/-- Observable effects of the lifecycle code.  `poolShutdown` records the
deadline passed to `ShutdownAndWait` and whether the pool happened to drain
cleanly within it (an external outcome that the caller cannot observe,
since `ShutdownAndWait` returns nothing). -/
inductive Event where
  | logInfo (msg : String)
  | logError (msg : String)
  /-- a direct, synchronous `p.Handler.Start(...)` call -/
  | handlerStart (pluginName : String)
  /-- `pool.Submit(log, jobId, fn)` -/
  | poolSubmit (pool : PoolId) (jobId : String)
  /-- `m.managingLifeCycleJob.Quit <- true` -/
  | jobQuit
  /-- `pool.ShutdownAndWait(waitTimeout)` -/
  | poolShutdown (pool : PoolId) (timeoutNs : Nat) (drained : Bool)
deriving DecidableEq

/-- The `Manager` struct (`coreplugin.go` lines 52-69); the context, the two
pool objects themselves and the logger carry no state the embedded claims
depend on. -/
structure Manager where
  runningPlugins : List (String × PluginInfo)
  registeredPlugins : List (String × Plugin)
  managingLifeCycleJob : Option Job
deriving DecidableEq

/-- How a call to `Execute` ends: a Go runtime panic, or a normal return
carrying the function's `error` result (`none` = nil). -/
inductive ExecResult where
  | crashed
  | returned (err : Option String)
deriving DecidableEq

/-- Outcome of `Manager.Execute`: the updated manager, the emitted event
trace, and how the call ended. -/
structure ExecOut where
  m : Manager
  events : List Event
  result : ExecResult
deriving DecidableEq

/-! ## `Manager.Execute` (`coreplugin.go` lines 132-171) -/

/-- The revival loop body of `Execute` (lines 145-163): for each persisted
entry, `p = m.registeredPlugins[pluginName]` (zero value when absent), a log
line interpolating `p.Info.Name`, then the direct call
`p.Handler.Start(m.context, p.Info.Configuration, "", task.NewChanneledCancelFlag())`.
When `p.Handler` is the nil interface that call panics; the returned flag is
`true` when the loop panicked (aborting the rest of `Execute`). -/
def reviveLoop (registered : List (String × Plugin)) :
    List (String × PluginInfo) → List Event × Bool
  | [] => ([], false)
  | (pluginName, _) :: rest =>
    let p := mapGetD registered pluginName zeroPlugin
    let logEv := Event.logInfo ("Detected " ++ p.Info.Name ++
      " as a previously executing long running plugin. Starting that plugin again")
    match p.Handler with
    | none => ([logEv], true)
    | some _ =>
      (logEv :: Event.handlerStart pluginName :: (reviveLoop registered rest).1,
       (reviveLoop registered rest).2)

/-- `Manager.Execute`.  `readMap`/`readErr` model the pair returned by
`dataStore.Read()` (a nil map is the empty list); `sched` models the result
of `scheduler.Every(PollFrequencyMinutes).Minutes().Run(m.ensurePluginsAreRunning)`.
Note the named return `err`: the multi-assignment on line 138 stores the read
result into `m.runningPlugins` before the error check, and the bare `return`
on line 170 propagates whatever `err` last held. -/
def Manager.Execute (m : Manager) (readMap : List (String × PluginInfo))
    (readErr : Option String) (sched : Except String Job) : ExecOut :=
  let evs0 := [Event.logInfo "starting long running plugin manager"]
  let m1 : Manager := { m with runningPlugins := readMap }
  match readErr with
  | some e =>
    { m := m1,
      events := evs0 ++ [Event.logError (Name ++ " is exiting - unable to read from data store")],
      result := .returned (some e) }
  | none =>
    let rev :=
      if m1.runningPlugins.length > 0 then
        reviveLoop m1.registeredPlugins m1.runningPlugins
      else
        ([Event.logInfo "there aren't any long running plugin to execute"], false)
    if rev.2 then
      { m := m1, events := evs0 ++ rev.1, result := .crashed }
    else
      match sched with
      | .ok j =>
        { m := { m1 with managingLifeCycleJob := some j },
          events := evs0 ++ rev.1,
          result := .returned none }
      | .error e =>
        { m := { m1 with managingLifeCycleJob := none },
          events := evs0 ++ rev.1 ++
            [Event.logError ("unable to schedule long running plugins manager. " ++ e)],
          result := .returned (some e) }

/-! ## `Manager.ensurePluginsAreRunning` (`utils.go` lines 35-57) -/

/-- The loop body of `ensurePluginsAreRunning`: `p, isRegistered :=
m.registeredPlugins[n]`; when registered and `!p.Handler.IsRunning(...)`, a
log line followed by `m.startPlugin.Submit(log, n, closure)`.  The flag is
`true` when `IsRunning` was invoked on a nil handler (panic). -/
def ensureLoop (registered : List (String × Plugin)) :
    List (String × PluginInfo) → List Event × Bool
  | [] => ([], false)
  | (n, _) :: rest =>
    match mapGet registered n with
    | none => ensureLoop registered rest
    | some p =>
      match p.Handler with
      | none => ([], true)
      | some h =>
        if h.isRunning then
          ensureLoop registered rest
        else
          (Event.logInfo "Starting %s since it wasn't running before" ::
             Event.poolSubmit PoolId.start n :: (ensureLoop registered rest).1,
           (ensureLoop registered rest).2)

/-- `Manager.ensurePluginsAreRunning`: the reconciliation job. -/
def Manager.ensurePluginsAreRunning (m : Manager) : List Event × Bool :=
  if m.runningPlugins.length > 0 then
    ensureLoop m.registeredPlugins m.runningPlugins
  else
    ([Event.logInfo
        "There are no long running plugins currently getting executed - skipping their healthcheck"],
     false)

/-! ## Shutdown (`coreplugin.go` lines 174-208, `utils.go` lines 60-64) -/

/-- `Manager.stopLifeCycleManagementJob`: sends on the job's `Quit` channel
only when the handle is non-nil. -/
def Manager.stopLifeCycleManagementJob (m : Manager) : List Event :=
  match m.managingLifeCycleJob with
  | some _ => [Event.jobQuit]
  | none => []

/-- The deadline selection at the top of `RequestStop`: `SoftStopTimeout`
when `stopType == contracts.StopTypeSoftStop`, else `HardStopTimeout`. -/
def selectTimeout (stopType : String) : Nat :=
  if stopType = StopTypeSoftStop then SoftStopTimeout else HardStopTimeout

/-- `Manager.RequestStop`: stops the lifecycle-management job, then shuts
down the start pool and the stop pool with the selected deadline (the two
`ShutdownAndWait` calls run in goroutines joined by a `WaitGroup`, so both
appear in the trace before the function returns), and returns nil.
`startDrained` / `stopDrained` are the pools' externally determined drain
outcomes, which the code never inspects. -/
def Manager.RequestStop (m : Manager) (stopType : String)
    (startDrained stopDrained : Bool) : List Event × Option String :=
  let waitTimeout := selectTimeout stopType
  (m.stopLifeCycleManagementJob ++
     [Event.poolShutdown PoolId.start waitTimeout startDrained,
      Event.poolShutdown PoolId.stop waitTimeout stopDrained],
   none)

/-! ## `RegisteredPlugins` (`utils.go` lines 66-89) -/

def PluginNameAwsCloudwatch : String := "aws:cloudWatch"

/-- The `cwInfo` value built in `RegisteredPlugins`. -/
def cwInfo : PluginInfo :=
  { Name := PluginNameAwsCloudwatch, Configuration := "", State := {} }

/-- `RegisteredPlugins`: registers the cloudwatch plugin only when
`cloudwatch.NewPlugin(pluginutil.DefaultPluginConfig())` (external
constructor, its outcome is the argument) returned without error. -/
def RegisteredPlugins (cloudwatchResult : Except String LrHandler) :
    List (String × Plugin) :=
  let longrunningplugins : List (String × Plugin) := []
  match cloudwatchResult with
  | .ok handler =>
    mapSet longrunningplugins PluginNameAwsCloudwatch
      { Info := cwInfo, Handler := some handler }
  | .error _ => longrunningplugins

/-! ## Plugin catalog (`agent/framework/plugin/plugin.go`) -/

/-- A `plugin.T` executor.  The registry code treats these values opaquely
(it only stores and returns them), so they are modelled by an identity. -/
structure WorkerT where
  id : Nat
deriving DecidableEq

/-- `PluginRegistry` — map from plugin ID to executor. -/
def PluginRegistry : Type := List (String × WorkerT)

/-- External inputs consumed during a catalog load: the outcomes of the
plugin constructors and, for `loadPlatformDependentPlugins` (defined in the
platform-specific file outside this excerpt), the registry it produces.
`runcommand.Name()` and `updatessmagent.Name()` are likewise external and
appear as fields. -/
structure LoadEnv where
  lrpminvokerResult : Except String WorkerT
  runcommandName : String
  runcommandResult : Except String WorkerT
  updateAgentName : String
  updateAgentResult : Except String WorkerT
  platformDependent : PluginRegistry

/-- The package-level cache: `registeredExecuters` and
`registeredLongRunningPlugins` are `*PluginRegistry` pointers, nil before
the first load. -/
structure PluginPkgState where
  registeredExecuters : Option PluginRegistry
  registeredLongRunningPlugins : Option PluginRegistry

/-- `isLoaded()`: the cache is considered populated when
`registeredExecuters != nil`. -/
def isLoaded (s : PluginPkgState) : Bool :=
  s.registeredExecuters.isSome

/-- `cache(workerPlugins, longRunningPlugins)`: swaps both registries in. -/
def cache (workerPlugins longRunningPlugins : PluginRegistry) : PluginPkgState :=
  { registeredExecuters := some workerPlugins,
    registeredLongRunningPlugins := some longRunningPlugins }

/-- `getCachedWorkerPlugins()` (`none` models the nil-pointer dereference
that would occur if it ran before any load). -/
def getCachedWorkerPlugins (s : PluginPkgState) : Option PluginRegistry :=
  s.registeredExecuters

/-- `getCachedLongRunningPlugins()`. -/
def getCachedLongRunningPlugins (s : PluginPkgState) : Option PluginRegistry :=
  s.registeredLongRunningPlugins

/-- `loadLongRunningPlugins`: one lrpminvoker adapter handler serves every
long-running plugin name; on constructor failure the registry stays empty. -/
def loadLongRunningPlugins (env : LoadEnv) : PluginRegistry :=
  let longRunningPlugins : PluginRegistry := []
  match env.lrpminvokerResult with
  | .error _ => longRunningPlugins
  | .ok handler => mapSet longRunningPlugins "aws:cloudWatch" handler

/-- `loadPlatformIndependentPlugins`: registers the runcommand plugin and
the agent-update plugin, each omitted when its constructor errors. -/
def loadPlatformIndependentPlugins (env : LoadEnv) : PluginRegistry :=
  let workerPlugins : PluginRegistry := []
  let workerPlugins :=
    match env.runcommandResult with
    | .error _ => workerPlugins
    | .ok p => mapSet workerPlugins env.runcommandName p
  let workerPlugins :=
    match env.updateAgentResult with
    | .error _ => workerPlugins
    | .ok p => mapSet workerPlugins env.updateAgentName p
  workerPlugins

/-- `loadWorkerPlugins`: merges the platform-independent registry with the
platform-dependent one (later assignments overwrite). -/
def loadWorkerPlugins (env : LoadEnv) : PluginRegistry :=
  env.platformDependent.foldl (fun acc kv => mapSet acc kv.1 kv.2)
    (loadPlatformIndependentPlugins env)

/-- Outcome of one `RegisteredWorkerPlugins` / `RegisteredLongRunningPlugins`
call: the registry it returns, the package state afterwards, and whether the
load functions were invoked during the call. -/
structure CallOut where
  ret : Option PluginRegistry
  state : PluginPkgState
  didLoad : Bool

/-- `RegisteredWorkerPlugins(context)`. -/
def RegisteredWorkerPlugins (env : LoadEnv) (s : PluginPkgState) : CallOut :=
  let s1 := if isLoaded s then s
            else cache (loadWorkerPlugins env) (loadLongRunningPlugins env)
  { ret := getCachedWorkerPlugins s1, state := s1, didLoad := !isLoaded s }

/-- `RegisteredLongRunningPlugins(context)`. -/
def RegisteredLongRunningPlugins (env : LoadEnv) (s : PluginPkgState) : CallOut :=
  let s1 := if isLoaded s then s
            else cache (loadWorkerPlugins env) (loadLongRunningPlugins env)
  { ret := getCachedLongRunningPlugins s1, state := s1, didLoad := !isLoaded s }

/-- The package state before any catalog call: both pointers nil. -/
def freshPluginPkgState : PluginPkgState :=
  { registeredExecuters := none, registeredLongRunningPlugins := none }

/-! ## Derived notions used by the statements -/

/-- The job identities submitted to the start pool in a trace. -/
def submittedStartJobs (evs : List Event) : List String :=
  evs.filterMap fun e =>
    match e with
    | Event.poolSubmit PoolId.start j => some j
    | _ => none

/-- The reconciliation predicate of `utils.go` line 45, read off the code:
the name is registered and its handler reports not running. -/
def startNeeded (registered : List (String × Plugin)) (n : String) : Bool :=
  match mapGet registered n with
  | none => false
  | some p =>
    match p.Handler with
    | none => false
    | some h => !h.isRunning

/-- Every registered plugin carries a non-nil handler (true of every catalog
`RegisteredPlugins` can build, since it only registers a plugin together
with the handler its constructor returned). -/
def allHandlersLive (registered : List (String × Plugin)) : Bool :=
  registered.all fun kv => kv.2.Handler.isSome

/-- The revival loop of `Execute` dereferences no nil handler on this
persisted set: every persisted name resolves (through the zero value on a
miss) to a plugin with a non-nil handler. -/
def reviveSafe (registered : List (String × Plugin))
    (rm : List (String × PluginInfo)) : Bool :=
  rm.all fun e => ((mapGetD registered e.1 zeroPlugin).Handler).isSome

/-! ## Concrete fixtures for witnesses and counterexamples -/

/-- A cloudwatch handler whose `IsRunning` answers `false`. -/
def cwLiveHandler : LrHandler := { isRunning := false }

/-- The registered cloudwatch plugin with a live handler. -/
def cwPluginFixture : Plugin := { Info := cwInfo, Handler := some cwLiveHandler }

/-- A manager as built by `EnsureInitialization` with the default catalog:
empty running set, cloudwatch registered, no scheduled job yet. -/
def mgrFixture : Manager :=
  { runningPlugins := [],
    registeredPlugins := [(PluginNameAwsCloudwatch, cwPluginFixture)],
    managingLifeCycleJob := none }

/-- A persisted `PluginInfo` entry for cloudwatch. -/
def persistedCwInfo : PluginInfo :=
  { Name := PluginNameAwsCloudwatch, Configuration := "", State := {} }

/-- A persisted `PluginInfo` entry under a name absent from the catalog. -/
def unknownPluginInfo : PluginInfo :=
  { Name := "unknown:plugin", Configuration := "", State := {} }

/-- A manager whose persisted running set holds a registered name and an
unregistered one, for exercising the reconciliation loop. -/
def reconcileFixtureMgr : Manager :=
  { runningPlugins := [(PluginNameAwsCloudwatch, persistedCwInfo),
                       ("unknown:plugin", unknownPluginInfo)],
    registeredPlugins := [(PluginNameAwsCloudwatch, cwPluginFixture)],
    managingLifeCycleJob := none }

/-- A catalog-load environment where the runcommand constructor fails and
the other constructors succeed. -/
def loadEnvFixture : LoadEnv :=
  { lrpminvokerResult := Except.ok { id := 1 },
    runcommandName := "aws:runShellScript",
    runcommandResult := Except.error "constructor failed",
    updateAgentName := "aws:updateSsmAgent",
    updateAgentResult := Except.ok { id := 2 },
    platformDependent := [] }

/-! ## Helper lemmas -/

theorem mapGet_mem {α : Type} {l : List (String × α)} {k : String} {v : α}
    (h : mapGet l k = some v) : (k, v) ∈ l := by
  induction l with
  | nil => simp [mapGet] at h
  | cons kv rest ih =>
    obtain ⟨k', v'⟩ := kv
    by_cases hk : k' = k
    · subst hk
      simp [mapGet] at h
      subst h
      exact List.mem_cons_self _ _
    · simp [mapGet, hk] at h
      exact List.mem_cons_of_mem _ (ih h)

theorem registered_handler_isSome {registered : List (String × Plugin)}
    {n : String} {p : Plugin} (hcat : allHandlersLive registered = true)
    (h : mapGet registered n = some p) : p.Handler.isSome = true := by
  have hm := mapGet_mem h
  have := List.all_eq_true.mp hcat (n, p) hm
  simpa using this

theorem reviveLoop_no_crash (registered : List (String × Plugin))
    (rm : List (String × PluginInfo)) (hsafe : reviveSafe registered rm = true) :
    (reviveLoop registered rm).2 = false := by
  induction rm with
  | nil => rfl
  | cons e rest ih =>
    obtain ⟨n, i⟩ := e
    simp only [reviveSafe, List.all_cons, Bool.and_eq_true] at hsafe
    obtain ⟨hh, hrest⟩ := hsafe
    cases hcase : (mapGetD registered n zeroPlugin).Handler with
    | none => rw [hcase] at hh; simp at hh
    | some h => simp [reviveLoop, hcase, ih hrest]

theorem ensureLoop_spec (registered : List (String × Plugin))
    (hcat : allHandlersLive registered = true) :
    ∀ entries : List (String × PluginInfo),
      (ensureLoop registered entries).2 = false
      ∧ submittedStartJobs (ensureLoop registered entries).1
          = (entries.map Prod.fst).filter (startNeeded registered) := by
  intro entries
  induction entries with
  | nil => exact ⟨rfl, rfl⟩
  | cons e rest ih =>
    obtain ⟨n, i⟩ := e
    cases hm : mapGet registered n with
    | none =>
      refine ⟨?_, ?_⟩
      · simp [ensureLoop, hm, ih.1]
      · simp [ensureLoop, hm, startNeeded, ih.2]
    | some p =>
      have hs := registered_handler_isSome hcat hm
      cases hh : p.Handler with
      | none => rw [hh] at hs; simp at hs
      | some h =>
        cases hr : h.isRunning with
        | true =>
          refine ⟨?_, ?_⟩
          · simp [ensureLoop, hm, hh, hr, ih.1]
          · simp [ensureLoop, hm, hh, hr, startNeeded, ih.2]
        | false =>
          obtain ⟨ih1, ih2⟩ := ih
          simp only [submittedStartJobs] at ih2
          refine ⟨?_, ?_⟩
          · simp [ensureLoop, hm, hh, hr, ih1]
          · simp [ensureLoop, hm, hh, hr, startNeeded, submittedStartJobs, ih2]

/-! ## Claim theorems -/

/-- C1. The claim says `Execute` submits one start-pool job per persisted
name that matches a registered plugin, keyed by the plugin name.  The code
(`coreplugin.go` line 159) instead calls `p.Handler.Start` synchronously
inline — contradicting its own comment block about jobId = plugin name and
task-pool deduplication.  Evaluated at the failing input (persisted set
holding `aws:cloudWatch`, catalog registering it): `Execute` returns nil but
submits zero jobs to the start pool, invoking the handler directly. -/
theorem execute_revival_bypasses_start_pool :
    (Manager.Execute mgrFixture [(PluginNameAwsCloudwatch, persistedCwInfo)]
        none (Except.ok { id := 0 })).result = ExecResult.returned none
    ∧ submittedStartJobs (Manager.Execute mgrFixture
        [(PluginNameAwsCloudwatch, persistedCwInfo)]
        none (Except.ok { id := 0 })).events = []
    ∧ Event.handlerStart PluginNameAwsCloudwatch
        ∈ (Manager.Execute mgrFixture [(PluginNameAwsCloudwatch, persistedCwInfo)]
            none (Except.ok { id := 0 })).events := by
  refine ⟨rfl, rfl, ?_⟩
  simp [Manager.Execute, mgrFixture, reviveLoop, mapGetD, mapGet,
    PluginNameAwsCloudwatch, cwPluginFixture]

/-- C2. The claim says a persisted name with no matching registration is
silently skipped without error or crash.  The code indexes
`m.registeredPlugins[pluginName]` without an ok-check, obtaining the
zero-value `Plugin` whose `Handler` is the nil interface, and
`p.Handler.Start(...)` panics.  Evaluated at the failing input (persisted
set = one unregistered name, default catalog): `Execute` crashes. -/
theorem execute_crashes_on_unregistered_persisted_plugin :
    (Manager.Execute mgrFixture [("unknown:plugin", unknownPluginInfo)]
        none (Except.ok { id := 0 })).result = ExecResult.crashed := by
  rfl

/-- C3 counterexample. The claim says a scheduler-registration failure
leaves `Execute` returning a nil error.  `err` is a named return: after the
logging `if`, the bare `return` on line 170 propagates the scheduling
error.  At a concrete input with a successful (empty) data-store read and a
failing scheduler registration, `Execute` returns that error, not nil. -/
theorem execute_scheduler_failure_not_nil :
    (Manager.Execute mgrFixture [] none
        (Except.error "scheduler registration failed")).result
      = ExecResult.returned (some "scheduler registration failed")
    ∧ (Manager.Execute mgrFixture [] none
        (Except.error "scheduler registration failed")).result
      ≠ ExecResult.returned none := by
  exact ⟨rfl, by decide⟩

/-- C3 (amended). When registering the reconciliation job fails during
`Execute`, the failure is logged and `Execute` returns the scheduling error
to its caller (the job handle stays nil, so there is no self-healing). -/
theorem execute_logs_and_returns_scheduler_error (m : Manager)
    (rm : List (String × PluginInfo)) (e : String)
    (hsafe : reviveSafe m.registeredPlugins rm = true) :
    (Manager.Execute m rm none (Except.error e)).result
      = ExecResult.returned (some e)
    ∧ Event.logError ("unable to schedule long running plugins manager. " ++ e)
        ∈ (Manager.Execute m rm none (Except.error e)).events
    ∧ (Manager.Execute m rm none (Except.error e)).m.managingLifeCycleJob = none := by
  have hnc : (if rm.length > 0 then reviveLoop m.registeredPlugins rm
      else ([Event.logInfo "there aren't any long running plugin to execute"], false)).2
      = false := by
    split
    · exact reviveLoop_no_crash m.registeredPlugins rm hsafe
    · rfl
  simp only [Manager.Execute]
  simp [hnc]

/-- C3 witness: the amended theorem applied at a concrete input. -/
theorem execute_logs_and_returns_scheduler_error_witness :
    reviveSafe mgrFixture.registeredPlugins
      [(PluginNameAwsCloudwatch, persistedCwInfo)] = true
    ∧ ((Manager.Execute mgrFixture [(PluginNameAwsCloudwatch, persistedCwInfo)]
          none (Except.error "boom")).result = ExecResult.returned (some "boom")
       ∧ Event.logError ("unable to schedule long running plugins manager. " ++ "boom")
           ∈ (Manager.Execute mgrFixture [(PluginNameAwsCloudwatch, persistedCwInfo)]
               none (Except.error "boom")).events
       ∧ (Manager.Execute mgrFixture [(PluginNameAwsCloudwatch, persistedCwInfo)]
           none (Except.error "boom")).m.managingLifeCycleJob = none) :=
  ⟨by decide,
   execute_logs_and_returns_scheduler_error mgrFixture
     [(PluginNameAwsCloudwatch, persistedCwInfo)] "boom" (by decide)⟩

/-- C9. The multi-assignment `m.runningPlugins, err = dataStore.Read()`
stores the returned map before the error check, so a failed `Execute`
overwrites the previous running-plugin set with whatever the store returned
(the empty list models Go's nil map) and returns the read error. -/
theorem execute_overwrites_running_set_on_read_failure (m : Manager)
    (rm : List (String × PluginInfo)) (e : String) (sched : Except String Job) :
    (Manager.Execute m rm (some e) sched).m.runningPlugins = rm
    ∧ (Manager.Execute m rm (some e) sched).result = ExecResult.returned (some e) :=
  ⟨rfl, rfl⟩

/-- C5. `RequestStop` ends in `return nil`: for every stop type and for
every drain outcome of the two pools (which `ShutdownAndWait` does not even
report), the call returns a nil error. -/
theorem requestStop_returns_nil (m : Manager) (stopType : String)
    (startDrained stopDrained : Bool) :
    (m.RequestStop stopType startDrained stopDrained).2 = none :=
  rfl

/-- C6. `RequestStop` selects the twenty-second deadline for SoftStop and
the four-second deadline for HardStop, first stops the lifecycle-management
job, then shuts both pools down with the selected deadline; both shutdowns
are in the trace before the call returns. -/
theorem requestStop_deadlines_and_sequence (m : Manager) (sd td : Bool) :
    m.RequestStop StopTypeSoftStop sd td
      = (m.stopLifeCycleManagementJob ++
          [Event.poolShutdown PoolId.start (20 * second) sd,
           Event.poolShutdown PoolId.stop (20 * second) td], none)
    ∧ m.RequestStop StopTypeHardStop sd td
      = (m.stopLifeCycleManagementJob ++
          [Event.poolShutdown PoolId.start (4 * second) sd,
           Event.poolShutdown PoolId.stop (4 * second) td], none) := by
  constructor
  · simp [Manager.RequestStop, selectTimeout, SoftStopTimeout]
  · have hne : StopTypeHardStop ≠ StopTypeSoftStop := by decide
    simp [Manager.RequestStop, selectTimeout, hne, HardStopTimeout]

/-- C10. With a nil reconciliation-job handle (as when `Execute` never ran
or scheduling failed), `stopLifeCycleManagementJob` performs no channel
send, and `RequestStop` still shuts down both pools and returns nil. -/
theorem requestStop_safe_without_job (m : Manager) (stopType : String)
    (sd td : Bool) (h : m.managingLifeCycleJob = none) :
    m.stopLifeCycleManagementJob = []
    ∧ (m.RequestStop stopType sd td).1
        = [Event.poolShutdown PoolId.start (selectTimeout stopType) sd,
           Event.poolShutdown PoolId.stop (selectTimeout stopType) td]
    ∧ (m.RequestStop stopType sd td).2 = none := by
  have h1 : m.stopLifeCycleManagementJob = [] := by
    unfold Manager.stopLifeCycleManagementJob
    rw [h]
  exact ⟨h1, by simp [Manager.RequestStop, h1], rfl⟩

/-- C10 witness: `RequestStop` on a manager with no scheduled job. -/
theorem requestStop_safe_without_job_witness :
    mgrFixture.managingLifeCycleJob = none
    ∧ (mgrFixture.stopLifeCycleManagementJob = []
       ∧ (mgrFixture.RequestStop StopTypeHardStop true false).1
           = [Event.poolShutdown PoolId.start (selectTimeout StopTypeHardStop) true,
              Event.poolShutdown PoolId.stop (selectTimeout StopTypeHardStop) false]
       ∧ (mgrFixture.RequestStop StopTypeHardStop true false).2 = none) :=
  ⟨rfl, requestStop_safe_without_job mgrFixture StopTypeHardStop true false rfl⟩

/-- C4. Reconciliation submits a start job, keyed by the plugin name,
exactly for the names in the running set that are registered and whose
handler reports not running: never for one reporting running, never for a
name outside the running set; on an empty running set it only logs.  The
catalog hypothesis (every registered handler non-nil) holds of everything
`RegisteredPlugins` can build; the Nodup hypothesis reflects Go map keys. -/
theorem ensure_submits_exactly_nonrunning_registered (m : Manager)
    (hcat : allHandlersLive m.registeredPlugins = true)
    (hnd : (m.runningPlugins.map Prod.fst).Nodup) :
    (m.ensurePluginsAreRunning).2 = false
    ∧ (submittedStartJobs (m.ensurePluginsAreRunning).1).Nodup
    ∧ (∀ n : String, n ∈ submittedStartJobs (m.ensurePluginsAreRunning).1
        ↔ (n ∈ m.runningPlugins.map Prod.fst
           ∧ startNeeded m.registeredPlugins n = true))
    ∧ (m.runningPlugins = [] →
        m.ensurePluginsAreRunning
          = ([Event.logInfo
                "There are no long running plugins currently getting executed - skipping their healthcheck"],
             false)) := by
  by_cases hrp : m.runningPlugins = []
  · refine ⟨?_, ?_, ?_, ?_⟩ <;>
      simp [Manager.ensurePluginsAreRunning, hrp, submittedStartJobs]
  · have hgt : m.runningPlugins.length > 0 := List.length_pos.mpr hrp
    have hspec := ensureLoop_spec m.registeredPlugins hcat m.runningPlugins
    have hens : m.ensurePluginsAreRunning
        = ensureLoop m.registeredPlugins m.runningPlugins := by
      unfold Manager.ensurePluginsAreRunning
      rw [if_pos hgt]
    refine ⟨?_, ?_, ?_, ?_⟩
    · rw [hens]; exact hspec.1
    · rw [hens, hspec.2]; exact hnd.filter _
    · intro n; rw [hens, hspec.2]; simp [List.mem_filter]
    · intro hcontr; exact absurd hcontr hrp

/-- C4 witness: a running set holding one registered-not-running name and
one unregistered name submits exactly the registered one. -/
theorem ensure_submits_exactly_nonrunning_registered_witness :
    allHandlersLive reconcileFixtureMgr.registeredPlugins = true
    ∧ (reconcileFixtureMgr.runningPlugins.map Prod.fst).Nodup
    ∧ ((reconcileFixtureMgr.ensurePluginsAreRunning).2 = false
       ∧ (submittedStartJobs (reconcileFixtureMgr.ensurePluginsAreRunning).1).Nodup
       ∧ (∀ n : String,
            n ∈ submittedStartJobs (reconcileFixtureMgr.ensurePluginsAreRunning).1
            ↔ (n ∈ reconcileFixtureMgr.runningPlugins.map Prod.fst
               ∧ startNeeded reconcileFixtureMgr.registeredPlugins n = true))
       ∧ (reconcileFixtureMgr.runningPlugins = [] →
            reconcileFixtureMgr.ensurePluginsAreRunning
              = ([Event.logInfo
                    "There are no long running plugins currently getting executed - skipping their healthcheck"],
                 false))) :=
  ⟨by decide, by decide,
   ensure_submits_exactly_nonrunning_registered reconcileFixtureMgr
     (by decide) (by decide)⟩

/-- C7. From the fresh package state, a call to either registry accessor
performs the one combined load, caching both registries at once; a
subsequent call to either accessor (whatever its context would load) does
not load again, leaves the state unchanged and returns the cached
registry. -/
theorem catalog_single_combined_load (env env2 : LoadEnv) :
    (RegisteredWorkerPlugins env freshPluginPkgState).didLoad = true
    ∧ (RegisteredWorkerPlugins env freshPluginPkgState).state
        = cache (loadWorkerPlugins env) (loadLongRunningPlugins env)
    ∧ (RegisteredWorkerPlugins env freshPluginPkgState).ret
        = some (loadWorkerPlugins env)
    ∧ (RegisteredLongRunningPlugins env freshPluginPkgState).didLoad = true
    ∧ (RegisteredLongRunningPlugins env freshPluginPkgState).state
        = cache (loadWorkerPlugins env) (loadLongRunningPlugins env)
    ∧ (RegisteredLongRunningPlugins env freshPluginPkgState).ret
        = some (loadLongRunningPlugins env)
    ∧ (RegisteredWorkerPlugins env2
        ((RegisteredWorkerPlugins env freshPluginPkgState).state)).didLoad = false
    ∧ (RegisteredWorkerPlugins env2
        ((RegisteredWorkerPlugins env freshPluginPkgState).state)).state
        = (RegisteredWorkerPlugins env freshPluginPkgState).state
    ∧ (RegisteredWorkerPlugins env2
        ((RegisteredWorkerPlugins env freshPluginPkgState).state)).ret
        = some (loadWorkerPlugins env)
    ∧ (RegisteredLongRunningPlugins env2
        ((RegisteredWorkerPlugins env freshPluginPkgState).state)).didLoad = false
    ∧ (RegisteredLongRunningPlugins env2
        ((RegisteredWorkerPlugins env freshPluginPkgState).state)).state
        = (RegisteredWorkerPlugins env freshPluginPkgState).state
    ∧ (RegisteredLongRunningPlugins env2
        ((RegisteredWorkerPlugins env freshPluginPkgState).state)).ret
        = some (loadLongRunningPlugins env) :=
  ⟨rfl, rfl, rfl, rfl, rfl, rfl, rfl, rfl, rfl, rfl, rfl, rfl⟩

/-- C8. A plugin whose constructor errors is omitted from its registry
while every other plugin is unaffected (each lookup depends only on its own
constructor outcome), and the load functions return a registry containing
at most the names they register — there is no overall failure value. -/
theorem catalog_load_omits_failed_plugins (env : LoadEnv)
    (cwRes : Except String LrHandler)
    (hne : env.runcommandName ≠ env.updateAgentName) :
    mapGet (loadPlatformIndependentPlugins env) env.runcommandName
      = exceptToOption env.runcommandResult
    ∧ mapGet (loadPlatformIndependentPlugins env) env.updateAgentName
      = exceptToOption env.updateAgentResult
    ∧ (∀ k : String, k ∈ (loadPlatformIndependentPlugins env).map Prod.fst
        → k = env.runcommandName ∨ k = env.updateAgentName)
    ∧ mapGet (loadLongRunningPlugins env) "aws:cloudWatch"
      = exceptToOption env.lrpminvokerResult
    ∧ (∀ k : String, k ∈ (loadLongRunningPlugins env).map Prod.fst
        → k = "aws:cloudWatch")
    ∧ mapGet (RegisteredPlugins cwRes) PluginNameAwsCloudwatch
      = (exceptToOption cwRes).map
          (fun h => { Info := cwInfo, Handler := some h })
    ∧ (∀ k : String, k ∈ (RegisteredPlugins cwRes).map Prod.fst
        → k = PluginNameAwsCloudwatch) := by
  obtain ⟨lr, rcn, rcr, uan, uar, pd⟩ := env
  simp only at hne
  have hne2 : uan ≠ rcn := Ne.symm hne
  refine ⟨?_, ?_, ?_, ?_, ?_, ?_, ?_⟩
  · rcases rcr with e | p <;> rcases uar with e2 | q <;>
      simp [loadPlatformIndependentPlugins, mapSet, mapGet, exceptToOption, hne, hne2]
  · rcases rcr with e | p <;> rcases uar with e2 | q <;>
      simp [loadPlatformIndependentPlugins, mapSet, mapGet, exceptToOption, hne, hne2]
  · rcases rcr with e | p <;> rcases uar with e2 | q <;>
      simp [loadPlatformIndependentPlugins, mapSet, mapGet, hne, hne2]
  · rcases lr with e3 | h3 <;>
      simp [loadLongRunningPlugins, mapSet, mapGet, exceptToOption]
  · rcases lr with e3 | h3 <;>
      simp [loadLongRunningPlugins, mapSet, mapGet]
  · rcases cwRes with e4 | h4 <;>
      simp [RegisteredPlugins, mapSet, mapGet, exceptToOption]
  · rcases cwRes with e4 | h4 <;>
      simp [RegisteredPlugins, mapSet, mapGet]

/-- C8 witness: with the runcommand constructor failing and the others
succeeding, runcommand is omitted, the agent-update and lrpminvoker
entries are present. -/
theorem catalog_load_omits_failed_plugins_witness :
    loadEnvFixture.runcommandName ≠ loadEnvFixture.updateAgentName
    ∧ (mapGet (loadPlatformIndependentPlugins loadEnvFixture)
          loadEnvFixture.runcommandName
        = exceptToOption loadEnvFixture.runcommandResult
       ∧ mapGet (loadPlatformIndependentPlugins loadEnvFixture)
           loadEnvFixture.updateAgentName
         = exceptToOption loadEnvFixture.updateAgentResult
       ∧ (∀ k : String,
            k ∈ (loadPlatformIndependentPlugins loadEnvFixture).map Prod.fst
            → k = loadEnvFixture.runcommandName ∨ k = loadEnvFixture.updateAgentName)
       ∧ mapGet (loadLongRunningPlugins loadEnvFixture) "aws:cloudWatch"
         = exceptToOption loadEnvFixture.lrpminvokerResult
       ∧ (∀ k : String,
            k ∈ (loadLongRunningPlugins loadEnvFixture).map Prod.fst
            → k = "aws:cloudWatch")
       ∧ mapGet (RegisteredPlugins (Except.error "cloudwatch constructor failed"))
           PluginNameAwsCloudwatch
         = (exceptToOption (Except.error "cloudwatch constructor failed" :
              Except String LrHandler)).map
             (fun h => { Info := cwInfo, Handler := some h })
       ∧ (∀ k : String,
            k ∈ (RegisteredPlugins
                  (Except.error "cloudwatch constructor failed")).map Prod.fst
            → k = PluginNameAwsCloudwatch)) :=
  ⟨by decide,
   catalog_load_omits_failed_plugins loadEnvFixture
     (Except.error "cloudwatch constructor failed") (by decide)⟩

end SsmAgent
